import Mathlib

/-! ciphercat: admission policy, session registry and relay handlers of `server.js`

A shallow embedding of `src/server.js`.  JavaScript strings are Lean strings and
are inspected through their character lists; regular-expression tests are the
corresponding prefix / whole-string tests on those lists.
-/

set_option autoImplicit false

namespace Ciphercat

/-! ## Configuration (lines 7-13) -/

/-- The constants read once from the environment.  `MIN_PORT`, `MAX_PORT` and
`MAX_CONN` are taken to be integers (the value `parseInt` gives on a decimal string). -/
structure Config where
  ALLOW_ANY : Bool
  ALLOW_HOSTS : List String
  MIN_PORT : Int
  MAX_PORT : Int
  MAX_CONN : Int
  deriving Repr

/-- The defaults of lines 8-13: allow-any off, empty allow-list, ports 1..65535, 50 sessions. -/
def defaultConfig : Config :=
  { ALLOW_ANY := false, ALLOW_HOSTS := [], MIN_PORT := 1, MAX_PORT := 65535, MAX_CONN := 50 }

/-! ## Admission policy (lines 17-40) -/

/-- The test `/^lit/.test(ip)` for a literal `lit`: the string starts with `lit`. -/
def startsWithChars (lit : String) (ip : List Char) : Bool :=
  lit.data.isPrefixOf ip

/-- The test `/^172\.(1[6-9]|2[0-9]|3[0-1])\./` on a character list. -/
def matches172 : List Char → Bool
  | '1' :: '7' :: '2' :: '.' :: x :: y :: '.' :: _ =>
      (x == '1' && decide ('6' ≤ y) && decide (y ≤ '9')) ||
      (x == '2' && decide ('0' ≤ y) && decide (y ≤ '9')) ||
      (x == '3' && decide ('0' ≤ y) && decide (y ≤ '1'))
  | _ => false

/-- Function `isPrivateIPv4` (lines 17-22): three anchored-prefix regular-expression tests. -/
def isPrivateIPv4 (ip : String) : Bool :=
  if startsWithChars "10." ip.data then true
  else if matches172 ip.data then true
  else if startsWithChars "192.168." ip.data then true
  else false

/-- Function `isLoopbackOrSensitive` (lines 24-29): prefix `127.`, the string `0.0.0.0`, or the
whole string `169.254.169.254` (the regular expression is anchored at both ends). -/
def isLoopbackOrSensitive (ip : String) : Bool :=
  if startsWithChars "127." ip.data then true
  else if ip == "0.0.0.0" then true
  else if ip == "169.254.169.254" then true
  else false

/-- Function `hostAllowed` (lines 31-36): allow-any first, then private range, then the
explicit allow-list. -/
def hostAllowed (cfg : Config) (host : String) : Bool :=
  if cfg.ALLOW_ANY then !isLoopbackOrSensitive host
  else if isPrivateIPv4 host && !isLoopbackOrSensitive host then true
  else if cfg.ALLOW_HOSTS.contains host then true
  else false


/-! ### IPv4 addresses in the private blocks (the notion the specification uses) -/

/-- Canonical dotted-decimal text of the IPv4 address `a.b.c.d`. -/
def ipv4Text (a b c d : Nat) : String :=
  String.mk ((Nat.repr a).data ++ '.' :: ((Nat.repr b).data ++ '.' ::
    ((Nat.repr c).data ++ '.' :: (Nat.repr d).data)))

/-- Split a character list at every `.`. -/
def splitOnDot : List Char → List (List Char)
  | [] => [[]]
  | c :: cs =>
    if c = '.' then [] :: splitOnDot cs
    else match splitOnDot cs with
      | [] => [[c]]
      | p :: ps => (c :: p) :: ps

/-- Value of a non-empty run of decimal digits. -/
def digitsValue (p : List Char) : Option Nat :=
  if p ≠ [] ∧ p.all Char.isDigit = true then
    some (p.foldl (fun n c => 10 * n + (c.toNat - 48)) 0)
  else none

/-- A host string read as an IPv4 address: four decimal octets `0..255` separated by dots,
written canonically (no sign, no leading zeros), as in `dec-octet` of RFC 3986. -/
def parseIPv4 (host : String) : Option (Nat × Nat × Nat × Nat) :=
  match splitOnDot host.data with
  | [p1, p2, p3, p4] =>
    match digitsValue p1, digitsValue p2, digitsValue p3, digitsValue p4 with
    | some a, some b, some c, some d =>
      if a ≤ 255 ∧ b ≤ 255 ∧ c ≤ 255 ∧ d ≤ 255 ∧ ipv4Text a b c d = host then some (a, b, c, d)
      else none
    | _, _, _, _ => none
  | _ => none

/-- Membership of `a.b.c.d` in `10.0.0.0/8`, `172.16.0.0/12` or `192.168.0.0/16`. -/
def inPrivateBlock : Nat × Nat × Nat × Nat → Bool
  | (a, b, _, _) =>
    a == 10 || (a == 172 && decide (16 ≤ b) && decide (b ≤ 31)) || (a == 192 && b == 168)

/-- The host is an IPv4 address inside one of the three private blocks. -/
def isIPv4InPrivateBlock (host : String) : Bool :=
  match parseIPv4 host with
  | some q => inPrivateBlock q
  | none => false

/-! ### Ports -/

/-- A JavaScript number: `NaN`, the two infinities, or a finite value.  Finite values are
kept as rationals; only their order and whether they are whole numbers are used. -/
inductive JSNumber where
  | nan
  | posInf
  | negInf
  | fin (q : ℚ)
  deriving DecidableEq

namespace JSNumber

/-- The test `Number.isInteger(x)`: a finite number without fractional part. -/
def isInteger : JSNumber → Bool
  | fin q => decide (q.den = 1)
  | _ => false

/-- The comparison `x >= n` for an integer `n` (false on `NaN`). -/
def ge (x : JSNumber) (n : Int) : Bool :=
  match x with
  | nan => false
  | posInf => true
  | negInf => false
  | fin q => decide ((n : ℚ) ≤ q)

/-- The comparison `x <= n` for an integer `n` (false on `NaN`). -/
def le (x : JSNumber) (n : Int) : Bool :=
  match x with
  | nan => false
  | posInf => false
  | negInf => true
  | fin q => decide (q ≤ (n : ℚ))

end JSNumber

/-- Function `portAllowed` (lines 38-40). -/
def portAllowed (cfg : Config) (port : JSNumber) : Bool :=
  port.isInteger && port.ge cfg.MIN_PORT && port.le cfg.MAX_PORT

/-- White space of ECMAScript (`WhiteSpace` and `LineTerminator`): what `\s` matches and
what `parseInt` skips at the start of its argument. -/
def isJSWhiteSpace (c : Char) : Bool :=
  let n := c.toNat
  n == 9 || n == 10 || n == 11 || n == 12 || n == 13 || n == 32 || n == 160 ||
  n == 0x1680 || (decide (0x2000 ≤ n) && decide (n ≤ 0x200A)) || n == 0x2028 || n == 0x2029 ||
  n == 0x202F || n == 0x205F || n == 0x3000 || n == 0xFEFF

/-- The call `parseInt(s, 10)`: skip leading white space, read an optional sign, then the longest
run of decimal digits; `NaN` when that run is empty.  The mathematical value is kept
(no rounding to a double). -/
def parseInt10 (s : String) : JSNumber :=
  let cs := s.data.dropWhile isJSWhiteSpace
  let signed : Bool × List Char :=
    match cs with
    | '-' :: r => (true, r)
    | '+' :: r => (false, r)
    | _ => (false, cs)
  let ds := signed.2.takeWhile Char.isDigit
  match digitsValue ds with
  | none => JSNumber.nan
  | some v => JSNumber.fin (if signed.1 then -(v : ℚ) else (v : ℚ))

/-- The hosts the blocklist is meant for: a host in the loopback block `127.x`, the literal
`0.0.0.0`, or the literal `169.254.169.254`. -/
def SensitiveHost (host : String) : Prop :=
  (∃ rest : String, host = "127." ++ rest) ∨ host = "0.0.0.0" ∨ host = "169.254.169.254"

/-! ## Wire messages and JSON values -/

/-- A message passed to `ws.send` (after `JSON.stringify`): the `type` tag and its text.
For `data` the bytes of the chunk are kept; on the wire they are base64 text with
`direction: 'in'`. -/
inductive Outbound where
  | error (message : String)
  | status (message : String)
  | info (message : String)
  | data (chunk : List Nat)
  deriving DecidableEq, Repr

/-- The message is of type `error`. -/
def Outbound.isError : Outbound → Bool
  | .error _ => true
  | _ => false

/-- The message is of type `info`. -/
def Outbound.isInfo : Outbound → Bool
  | .info _ => true
  | _ => false

/-- A value produced by `JSON.parse`.  An object is the list of its own properties. -/
inductive JSON where
  | null
  | bool (b : Bool)
  | num (q : ℚ)
  | str (s : String)
  | arr (items : List JSON)
  | obj (props : List (String × JSON))

/-- Property read `v.key` on a non-null value: `undefined` (here `none`) unless `v` is an
object that has the property.  (None of the keys read by the handler exists on the
prototypes of strings, numbers, booleans or arrays.) -/
def JSON.prop (v : JSON) (key : String) : Option JSON :=
  match v with
  | .obj props => props.lookup key
  | _ => none

/-- The test `x === lit` for a string literal `lit`. -/
def isString (x : Option JSON) (lit : String) : Bool :=
  match x with
  | some (.str s) => s == lit
  | _ => false

/-- JavaScript truthiness of a value read from parsed JSON (`undefined` is `none`). -/
def truthy : Option JSON → Bool
  | none => false
  | some .null => false
  | some (.bool b) => b
  | some (.num q) => decide (q ≠ 0)
  | some (.str s) => s != ""
  | some (.arr _) => true
  | some (.obj _) => true

/-- The expression `x || ''`. -/
def orEmpty (x : Option JSON) : JSON :=
  match x with
  | some v => if truthy x then v else .str ""
  | none => .str ""

/-- The text of an inbound channel message as `JSON.parse` sees it: either the parse throws
a `SyntaxError` with the given message, or it yields a value. -/
inductive Inbound where
  | invalid (err : String)
  | json (v : JSON)

/-- Value of one hexadecimal digit, either case. -/
def hexDigitValue (c : Char) : Option Nat :=
  let n := c.toNat
  if 48 ≤ n ∧ n ≤ 57 then some (n - 48)
  else if 97 ≤ n ∧ n ≤ 102 then some (n - 87)
  else if 65 ≤ n ∧ n ≤ 70 then some (n - 55)
  else none

/-- The call `Buffer.from(s, 'hex')` of Node.js: digit pairs are decoded from the left; decoding
stops without an exception at the first pair that is not two hex digits, and a single
trailing character is dropped. -/
def bufferFromHex : List Char → List Nat
  | c1 :: c2 :: rest =>
    match hexDigitValue c1, hexDigitValue c2 with
    | some hi, some lo => (16 * hi + lo) :: bufferFromHex rest
    | _, _ => []
  | _ => []

/-- The replacement `.replace(/[\s:]/g, '')`: drop every white-space character and colon. -/
def stripSeparators (cs : List Char) : List Char :=
  cs.filter (fun c => !(isJSWhiteSpace c || c == ':'))

/-- Bytes a string is written as by `tcp.write` (UTF-8). -/
def utf8Bytes (s : String) : List Nat :=
  (s.data.flatMap String.utf8EncodeChar).map UInt8.toNat

/-! ## Sessions (lines 48-137) -/

/-- The `readyState` of the message channel once the connection event has fired. -/
inductive ReadyState where
  | opened
  | closing
  | closed
  deriving DecidableEq, Repr

/-- What one accepted channel and the closure of its connection handler own.
`sent` records the messages sent to the client and `written` the calls of `tcp.write`,
in order; `armed` is the
set of pending timers, `idleTimer` the handle held by the variable of that name. -/
structure Session where
  ws : ReadyState
  sent : List Outbound
  tcpOpened : Bool
  tcpDestroyed : Bool
  written : List (List Nat)
  idleTimer : Nat
  armed : List Nat
  nextTimer : Nat
  registered : Bool
  target : String
  deriving DecidableEq, Repr

/-- A channel at the moment the connection event fires. -/
def Session.fresh : Session :=
  { ws := .opened, sent := [], tcpOpened := false, tcpDestroyed := false, written := [],
    idleTimer := 0, armed := [], nextTimer := 0, registered := false, target := "" }

/-- The call `ws.send(JSON.stringify(m))`.  The message reaches the client only while the
channel is open: once `ws.close()` has been called (channel closing or closed) the call
transmits nothing. -/
def Session.wsSend (m : Outbound) (s : Session) : Session :=
  if s.ws = .opened then { s with sent := s.sent ++ [m] } else s

/-- The call `ws.close()`: an open channel starts closing. -/
def Session.wsClose (s : Session) : Session :=
  { s with ws := match s.ws with
                 | .opened => .closing
                 | st => st }

/-- The call `tcp.destroy()`. -/
def Session.tcpDestroy (s : Session) : Session :=
  { s with tcpDestroyed := true }

/-- The call `tcp.write(bytes)`. -/
def Session.tcpWrite (bytes : List Nat) (s : Session) : Session :=
  { s with written := s.written ++ [bytes] }

/-- The call `clearTimeout(idleTimer)`. -/
def Session.clearIdle (s : Session) : Session :=
  { s with armed := s.armed.filter (fun t => t != s.idleTimer) }

/-- The assignment `idleTimer = setTimeout(..., IDLE_TIMEOUT_MS)`: a new pending timer. -/
def Session.armIdle (s : Session) : Session :=
  { s with idleTimer := s.nextTimer, armed := s.armed ++ [s.nextTimer],
           nextTimer := s.nextTimer + 1 }

/-- Function `resetIdle` (lines 75-82): cancel the timer held, arm a new one. -/
def Session.resetIdle (s : Session) : Session :=
  s.clearIdle.armIdle

/-- The timer callback (lines 70-72 and 78-80). -/
def Session.onIdle (s : Session) : Session :=
  ((s.wsSend (.info "Idle timeout.")).wsClose).tcpDestroy

/-- All bytes handed to `tcp.write` so far. -/
def Session.bytesWritten (s : Session) : List Nat :=
  s.written.flatten

/-- The `message` listener (lines 103-119).  `fromBase64` stands for
`Buffer.from(x, 'base64')` of the platform, which either throws or yields bytes.  A thrown
`TypeError` is reported with a placeholder for the platform text of the exception. -/
def onMessage (fromBase64 : JSON → Except String (List Nat)) (msg : Inbound)
    (s0 : Session) : Session :=
  let s := s0.resetIdle
  match msg with
  | .invalid err => s.wsSend (.error ("Bad message: " ++ err))
  | .json .null => s.wsSend (.error "Bad message: TypeError")
  | .json payload =>
    if isString (payload.prop "type") "send" then
      if isString (payload.prop "mode") "text" then
        match orEmpty (payload.prop "text") with
        | .str t => s.tcpWrite (utf8Bytes t)
        | _ => s.wsSend (.error "Bad message: TypeError")
      else if isString (payload.prop "mode") "hex" then
        match orEmpty (payload.prop "hex") with
        | .str h => s.tcpWrite (bufferFromHex (stripSeparators h.data))
        | _ => s.wsSend (.error "Bad message: TypeError")
      else if isString (payload.prop "mode") "base64" then
        match fromBase64 (orEmpty (payload.prop "base64")) with
        | .ok bytes => s.tcpWrite bytes
        | .error err => s.wsSend (.error ("Bad message: " ++ err))
      else s
    else s

/-- An event delivered to the listeners of one session. -/
inductive Event where
  | tcpConnect
  | tcpData (chunk : List Nat)
  | tcpEnd
  | tcpError (message : String)
  | wsMessage (msg : Inbound)
  | wsClose
  | wsError
  | timeout (id : Nat)

/-- When the platform can deliver the event: listeners exist, the byte stream has not been
destroyed (for its events), the channel has not yet emitted `close` (for its events), the
timer is pending (for an expiry). -/
def Event.enabled (s : Session) : Event → Bool
  | .tcpConnect => s.registered && !s.tcpDestroyed
  | .tcpData _ => s.registered && !s.tcpDestroyed
  | .tcpEnd => s.registered && !s.tcpDestroyed
  | .tcpError _ => s.registered && !s.tcpDestroyed
  | .wsMessage _ => s.registered && s.ws != .closed
  | .wsClose => s.registered && s.ws != .closed
  | .wsError => s.registered && s.ws != .closed
  | .timeout id => s.registered && s.armed.contains id

/-- The listener bodies of lines 69-131 on the counter `currentConns` and the session,
together with what the platform does at delivery: the channel is `closed` when `close` is
emitted and `closing` when `error` is emitted (its `close` follows), and an expired timer is
no longer pending. -/
def handle (fromBase64 : JSON → Except String (List Nat)) (ev : Event)
    (currentConns : Int) (s : Session) : Int × Session :=
  match ev with
  | .tcpConnect => (currentConns, s.wsSend (.status ("Connected to " ++ s.target)))
  | .tcpData chunk => (currentConns, (s.wsSend (.data chunk)).resetIdle)
  | .tcpEnd => (currentConns, (s.wsSend (.status "Remote closed.")).wsClose)
  | .tcpError message => (currentConns, (s.wsSend (.error ("TCP error: " ++ message))).wsClose)
  | .wsMessage msg => (currentConns, onMessage fromBase64 msg s)
  | .wsClose => (currentConns - 1, { s with ws := .closed }.clearIdle.tcpDestroy)
  | .wsError =>
    (currentConns - 1, ({ s with ws := .closing } : Session).clearIdle.tcpDestroy)
  | .timeout id => (currentConns, ({ s with armed := s.armed.erase id } : Session).onIdle)

/-- One event on one session; an event that cannot be delivered changes nothing. -/
def step (fromBase64 : JSON → Except String (List Nat)) (ev : Event)
    (st : Int × Session) : Int × Session :=
  if ev.enabled st.2 then handle fromBase64 ev st.1 st.2 else st

/-- A sequence of events on one session. -/
def run (fromBase64 : JSON → Except String (List Nat)) (evs : List Event)
    (st : Int × Session) : Int × Session :=
  evs.foldl (fun acc ev => step fromBase64 ev acc) st

/-! ## The connection handler and the server (lines 15, 48-67) -/

/-- What the handler reads from the upgrade request: `new URL(...)` throws, or the
`host` and `port` query parameters (absent ones are `none`). -/
inductive Handshake where
  | badUrl (message : String)
  | query (host : Option String) (port : Option String)

/-- Text of an integer port in a status message. -/
def portText : JSNumber → String
  | .fin q => toString q.num
  | _ => "NaN"

/-- A rejected channel: one `error` message, then `ws.close()` (lines 55-57, 61-63, 134-135). -/
def rejected (message : String) : Session :=
  (Session.fresh.wsSend (.error message)).wsClose

/-- The `connection` listener (lines 48-137) on the counter `currentConns`; it yields the new
counter and the state of the accepted channel.  `net.createConnection` throws synchronously
on a port outside `0..65535`, which the `catch` of line 133 reports. -/
def onConnection (cfg : Config) (currentConns : Int) (hs : Handshake) : Int × Session :=
  match hs with
  | .badUrl message => (currentConns, rejected message)
  | .query h p =>
    let host := h.getD ""
    let port := parseInt10 (p.getD "")
    if host == "" || !portAllowed cfg port || !hostAllowed cfg host then
      (currentConns, rejected "Host/port not allowed.")
    else if currentConns ≥ cfg.MAX_CONN then
      (currentConns, rejected "Server busy.")
    else if !(port.ge 0 && port.le 65535) then
      (currentConns, rejected "RangeError")
    else
      (currentConns + 1,
        { Session.fresh with
          tcpOpened := true, registered := true, target := host ++ ":" ++ portText port }.armIdle)

/-- The process: the counter of line 15 and every channel accepted so far. -/
structure Server where
  currentConns : Int
  sessions : List Session

/-- The process at start. -/
def Server.init : Server :=
  { currentConns := 0, sessions := [] }

/-- What can happen to the process: a new channel, or an event on the `i`-th channel. -/
inductive ServerEvent where
  | connection (hs : Handshake)
  | session (i : Nat) (ev : Event)

/-- One step of the process. -/
def Server.step (cfg : Config) (fromBase64 : JSON → Except String (List Nat))
    (sv : Server) : ServerEvent → Server
  | .connection hs =>
    let r := onConnection cfg sv.currentConns hs
    { currentConns := r.1, sessions := sv.sessions ++ [r.2] }
  | .session i ev =>
    match sv.sessions.get? i with
    | none => sv
    | some s =>
      let r := Ciphercat.step fromBase64 ev (sv.currentConns, s)
      { currentConns := r.1, sessions := sv.sessions.set i r.2 }

/-- A sequence of steps of the process. -/
def Server.run (cfg : Config) (fromBase64 : JSON → Except String (List Nat))
    (trace : List ServerEvent) (sv : Server) : Server :=
  trace.foldl (Server.step cfg fromBase64) sv

/-! ### Hex payloads (the encoding the specification speaks of) -/

/-- A separator allowed between digit pairs: white space or a colon. -/
def isSeparator (c : Char) : Bool :=
  isJSWhiteSpace c || c == ':'

/-- The hexadecimal digit of `n < 16`, in lower or upper case. -/
def hexDigitChar (upper : Bool) (n : Nat) : Char :=
  if n < 10 then Char.ofNat (48 + n)
  else if upper then Char.ofNat (55 + n) else Char.ofNat (87 + n)

/-- The two-hex-digit encoding of one byte. -/
def hexPair (upper : Bool) (b : Nat) : List Char :=
  [hexDigitChar upper (b / 16), hexDigitChar upper (b % 16)]

/-- A hex payload: each byte is written as a digit pair (in a case of its own) preceded by
a run of characters, and a last run follows the final pair. -/
def hexPayload : List (List Char × Bool × Nat) → List Char → List Char
  | [], trailing => trailing
  | (sep, upper, b) :: rest, trailing => sep ++ (hexPair upper b ++ hexPayload rest trailing)

/-- Number of `info` messages the client has been sent. -/
def Session.infoCount (s : Session) : Nat :=
  (s.sent.filter Outbound.isInfo).length

/-- At most one timer is pending, and it is the one `idleTimer` holds. -/
def Session.timersOk (s : Session) : Prop :=
  s.armed = [] ∨ s.armed = [s.idleTimer]

/-- What holds of a session at every moment: at most one timer is pending, the client has
been sent at most one `info` message and none while the channel is open, and a closed
channel has no pending timer and a destroyed byte stream. -/
def Session.idleOk (s : Session) : Prop :=
  s.timersOk ∧ s.infoCount ≤ 1 ∧ (s.ws = .opened → s.infoCount = 0) ∧
  (s.ws = .closed → s.armed = [] ∧ s.tcpDestroyed = true)

/-- A session admitted under the default configuration, target `10.0.0.5:80`. -/
def openSession : Session :=
  (onConnection defaultConfig 0 (.query (some "10.0.0.5") (some "80"))).2

/-- A `Buffer.from(x, 'base64')` that decodes nothing, for evaluating traces without
base64 messages. -/
def noBase64 : JSON → Except String (List Nat) :=
  fun _ => .ok []

end Ciphercat


/-! # Theorems -/

namespace Ciphercat

/-! ## Admission policy -/

theorem isLoopbackOrSensitive_of_sensitive (host : String) (h : SensitiveHost host) :
    isLoopbackOrSensitive host = true := by
  rcases h with ⟨rest, rfl⟩ | rfl | rfl
  · simp [isLoopbackOrSensitive, startsWithChars, String.data_append]
  · decide
  · decide

/-- C1, as stated, fails: with allow-any off, the loopback address `127.0.0.1` placed on
the explicit allow-list is allowed. -/
theorem hostAllowed_sensitive_on_allow_list :
    ¬ (∀ (cfg : Config) (host : String), SensitiveHost host → hostAllowed cfg host = false) := by
  intro h
  have h1 := h { defaultConfig with ALLOW_HOSTS := ["127.0.0.1"] } "127.0.0.1"
    (Or.inl ⟨"0.0.1", by decide⟩)
  revert h1
  decide

/-- C1 (amended): a loopback/sensitive host is allowed exactly when allow-any is off and
the host is an entry of the explicit allow-list; in particular it is denied for every
allow-list when allow-any is on, and denied when it is not on the allow-list. -/
theorem hostAllowed_sensitive (cfg : Config) (host : String) (h : SensitiveHost host) :
    hostAllowed cfg host = (!cfg.ALLOW_ANY && cfg.ALLOW_HOSTS.contains host) := by
  have hs := isLoopbackOrSensitive_of_sensitive host h
  unfold hostAllowed
  rw [hs]
  cases cfg.ALLOW_ANY <;> cases cfg.ALLOW_HOSTS.contains host <;> simp

theorem hostAllowed_sensitive_witness :
    SensitiveHost "169.254.169.254" ∧
    hostAllowed { defaultConfig with ALLOW_ANY := true, ALLOW_HOSTS := ["169.254.169.254"] }
        "169.254.169.254" =
      (!true && ["169.254.169.254"].contains "169.254.169.254") :=
  ⟨Or.inr (Or.inr rfl),
   hostAllowed_sensitive { defaultConfig with ALLOW_ANY := true, ALLOW_HOSTS := ["169.254.169.254"] }
     "169.254.169.254" (Or.inr (Or.inr rfl))⟩

/-- What holds of the allow-list with allow-any off: for a host that `isPrivateIPv4` does
not match, `hostAllowed` is membership in the explicit allow-list. -/
theorem hostAllowed_not_private (cfg : Config) (host : String) (hany : cfg.ALLOW_ANY = false)
    (hp : isPrivateIPv4 host = false) :
    hostAllowed cfg host = cfg.ALLOW_HOSTS.contains host := by
  simp [hostAllowed, hany, hp]

/-- C2: evaluation at the failing input.  The DNS name `10.evil.com` is not an IPv4
address in a private block and is not on the (empty) allow-list, allow-any is off, and
`hostAllowed` nevertheless allows it, because `isPrivateIPv4` only tests the prefix `10.`. -/
theorem hostAllowed_private_prefix_only :
    isIPv4InPrivateBlock "10.evil.com" = false ∧
    defaultConfig.ALLOW_ANY = false ∧
    defaultConfig.ALLOW_HOSTS.contains "10.evil.com" = false ∧
    isPrivateIPv4 "10.evil.com" = true ∧
    hostAllowed defaultConfig "10.evil.com" = true := by
  decide

theorem parseIPv4_eq_some {host : String} {a b c d : Nat}
    (h : parseIPv4 host = some (a, b, c, d)) : host = ipv4Text a b c d := by
  unfold parseIPv4 at h
  split at h
  · split at h
    · split at h
      · rename_i hc
        simp only [Option.some.injEq, Prod.mk.injEq] at h
        obtain ⟨rfl, rfl, rfl, rfl⟩ := h
        exact hc.2.2.2.2.symm
      · exact absurd h (by simp)
    · exact absurd h (by simp)
  · exact absurd h (by simp)

theorem private_text_classified (a b c d : Nat) (h : inPrivateBlock (a, b, c, d) = true) :
    isPrivateIPv4 (ipv4Text a b c d) = true ∧ isLoopbackOrSensitive (ipv4Text a b c d) = false := by
  simp only [inPrivateBlock, Bool.or_eq_true, Bool.and_eq_true, beq_iff_eq,
    decide_eq_true_eq] at h
  rcases h with (rfl | ⟨⟨rfl, h1⟩, h2⟩) | ⟨rfl, rfl⟩
  · have e : (Nat.repr 10).data = ['1', '0'] := by decide
    constructor
    · simp [isPrivateIPv4, ipv4Text, e, startsWithChars]
    · simp [isLoopbackOrSensitive, ipv4Text, e, startsWithChars, String.ext_iff]
  · have e : (Nat.repr 172).data = ['1', '7', '2'] := by decide
    interval_cases b <;>
    · constructor
      · simp [isPrivateIPv4, ipv4Text, e, startsWithChars, matches172, Nat.repr, Nat.toDigits,
          Nat.toDigitsCore, Nat.digitChar, List.asString]
      · simp [isLoopbackOrSensitive, ipv4Text, e, startsWithChars, String.ext_iff]
  · have e : (Nat.repr 192).data = ['1', '9', '2'] := by decide
    have e2 : (Nat.repr 168).data = ['1', '6', '8'] := by decide
    constructor
    · simp [isPrivateIPv4, ipv4Text, e, e2, startsWithChars, matches172]
    · simp [isLoopbackOrSensitive, ipv4Text, e, startsWithChars, String.ext_iff]

/-- C3: every host that is an IPv4 address in `10.0.0.0/8`, `172.16.0.0/12` or
`192.168.0.0/16` is not loopback/sensitive and is allowed by `hostAllowed` for every
allow-any flag and every allow-list. -/
theorem hostAllowed_private_block (cfg : Config) (host : String)
    (h : isIPv4InPrivateBlock host = true) :
    isLoopbackOrSensitive host = false ∧ hostAllowed cfg host = true := by
  unfold isIPv4InPrivateBlock at h
  split at h
  · rename_i q hq
    obtain ⟨a, b, c, d⟩ := q
    have e := parseIPv4_eq_some hq
    obtain ⟨hp, hl⟩ := private_text_classified a b c d h
    rw [← e] at hp hl
    refine ⟨hl, ?_⟩
    unfold hostAllowed
    rw [hp, hl]
    cases cfg.ALLOW_ANY <;> simp
  · exact absurd h (by simp)

theorem hostAllowed_private_block_witness :
    isIPv4InPrivateBlock "10.0.0.5" = true ∧
    (isLoopbackOrSensitive "10.0.0.5" = false ∧ hostAllowed defaultConfig "10.0.0.5" = true) :=
  ⟨by decide, hostAllowed_private_block defaultConfig "10.0.0.5" (by decide)⟩

/-- C4: with allow-any enabled, `hostAllowed` is the negation of `isLoopbackOrSensitive`
for every allow-list, and the literals `127.0.0.1`, `0.0.0.0`, `169.254.169.254` are denied. -/
theorem hostAllowed_allow_any (cfg : Config) (host : String) (h : cfg.ALLOW_ANY = true) :
    hostAllowed cfg host = !isLoopbackOrSensitive host ∧
    hostAllowed cfg "127.0.0.1" = false ∧
    hostAllowed cfg "0.0.0.0" = false ∧
    hostAllowed cfg "169.254.169.254" = false := by
  have key : ∀ x : String, hostAllowed cfg x = !isLoopbackOrSensitive x := by
    intro x
    simp [hostAllowed, h]
  refine ⟨key host, ?_, ?_, ?_⟩ <;> rw [key] <;> decide

theorem hostAllowed_allow_any_witness :
    ({ defaultConfig with ALLOW_ANY := true, ALLOW_HOSTS := ["127.0.0.1"] } : Config).ALLOW_ANY
        = true ∧
    (hostAllowed { defaultConfig with ALLOW_ANY := true, ALLOW_HOSTS := ["127.0.0.1"] }
        "example.org" = !isLoopbackOrSensitive "example.org" ∧
     hostAllowed { defaultConfig with ALLOW_ANY := true, ALLOW_HOSTS := ["127.0.0.1"] }
        "127.0.0.1" = false ∧
     hostAllowed { defaultConfig with ALLOW_ANY := true, ALLOW_HOSTS := ["127.0.0.1"] }
        "0.0.0.0" = false ∧
     hostAllowed { defaultConfig with ALLOW_ANY := true, ALLOW_HOSTS := ["127.0.0.1"] }
        "169.254.169.254" = false) :=
  ⟨rfl, hostAllowed_allow_any
    { defaultConfig with ALLOW_ANY := true, ALLOW_HOSTS := ["127.0.0.1"] } "example.org" rfl⟩

theorem isInteger_iff (q : ℚ) : JSNumber.isInteger (JSNumber.fin q) = true ↔ ∃ n : ℤ, q = n := by
  simp only [JSNumber.isInteger, decide_eq_true_eq]
  constructor
  · intro h
    exact ⟨q.num, (Rat.den_eq_one_iff q |>.mp h).symm⟩
  · rintro ⟨n, rfl⟩
    simp

/-- C5: `portAllowed` holds exactly of the integers between `MIN_PORT` and `MAX_PORT`;
under the default bounds the handshake values `0`, `65536` and a non-numeric or absent
parameter (parsed to `NaN`) are denied and `1`, `65535` are allowed. -/
theorem portAllowed_iff_integer_in_range :
    (∀ (cfg : Config) (port : JSNumber),
      portAllowed cfg port = true ↔
        ∃ n : ℤ, port = JSNumber.fin n ∧ cfg.MIN_PORT ≤ n ∧ n ≤ cfg.MAX_PORT) ∧
    portAllowed defaultConfig (parseInt10 "0") = false ∧
    portAllowed defaultConfig (parseInt10 "65536") = false ∧
    parseInt10 "abc" = JSNumber.nan ∧
    parseInt10 "" = JSNumber.nan ∧
    (∀ cfg : Config, portAllowed cfg JSNumber.nan = false) ∧
    (onConnection defaultConfig 0 (.query (some "10.0.0.5") (some "abc"))).2 =
      rejected "Host/port not allowed." ∧
    portAllowed defaultConfig (parseInt10 "1") = true ∧
    portAllowed defaultConfig (parseInt10 "65535") = true := by
  refine ⟨?_, by decide, by decide, by decide, by decide, fun _ => rfl, by decide, by decide,
    by decide⟩
  intro cfg port
  cases port with
  | nan => simp [portAllowed, JSNumber.isInteger]
  | posInf => simp [portAllowed, JSNumber.isInteger]
  | negInf => simp [portAllowed, JSNumber.isInteger]
  | fin q =>
    constructor
    · intro h
      simp only [portAllowed, Bool.and_eq_true] at h
      obtain ⟨⟨h1, h2⟩, h3⟩ := h
      obtain ⟨n, rfl⟩ := (isInteger_iff q).mp h1
      simp only [JSNumber.ge, JSNumber.le, decide_eq_true_eq, Int.cast_le] at h2 h3
      exact ⟨n, rfl, h2, h3⟩
    · rintro ⟨n, hn, h2, h3⟩
      simp only [JSNumber.fin.injEq] at hn
      subst hn
      simp only [portAllowed, Bool.and_eq_true]
      refine ⟨⟨(isInteger_iff _).mpr ⟨n, rfl⟩, ?_⟩, ?_⟩
      · simpa [JSNumber.ge] using h2
      · simpa [JSNumber.le] using h3

/-! ## Session registry -/

theorem onConnection_counter (cfg : Config) (n : Int) (hs : Handshake) :
    (onConnection cfg n hs).1 = n ∨ ((onConnection cfg n hs).1 = n + 1 ∧ n < cfg.MAX_CONN) := by
  unfold onConnection
  cases hs with
  | badUrl m => exact Or.inl rfl
  | query h p =>
    dsimp only
    split
    · exact Or.inl rfl
    · split
      · exact Or.inl rfl
      · rename_i hlt
        split
        · exact Or.inl rfl
        · exact Or.inr ⟨rfl, by omega⟩

theorem step_counter (fromBase64 : JSON → Except String (List Nat)) (ev : Event)
    (st : Int × Session) : (step fromBase64 ev st).1 ≤ st.1 := by
  unfold step
  split
  · cases ev <;> simp [handle]
  · exact le_refl _

theorem server_step_bound (cfg : Config) (fromBase64 : JSON → Except String (List Nat))
    (sv : Server) (e : ServerEvent) (h : sv.currentConns ≤ cfg.MAX_CONN) :
    (Server.step cfg fromBase64 sv e).currentConns ≤ cfg.MAX_CONN := by
  cases e with
  | connection hs =>
    simp only [Server.step]
    rcases onConnection_counter cfg sv.currentConns hs with h1 | ⟨h1, h2⟩
    · rw [h1]; exact h
    · rw [h1]; omega
  | session i ev =>
    simp only [Server.step]
    split
    · exact h
    · rename_i s _
      have := step_counter fromBase64 ev (sv.currentConns, s)
      simp only at this ⊢
      omega

theorem server_run_bound (cfg : Config) (fromBase64 : JSON → Except String (List Nat))
    (trace : List ServerEvent) (sv : Server) (h : sv.currentConns ≤ cfg.MAX_CONN) :
    (Server.run cfg fromBase64 trace sv).currentConns ≤ cfg.MAX_CONN := by
  induction trace generalizing sv with
  | nil => exact h
  | cons e rest ih =>
    simp only [Server.run, List.foldl_cons]
    exact ih _ (server_step_bound cfg fromBase64 sv e h)

theorem onConnection_full (cfg : Config) (n : Int) (hs : Handshake) (h : n ≥ cfg.MAX_CONN) :
    (onConnection cfg n hs).1 = n ∧ ∃ m : String, (onConnection cfg n hs).2 = rejected m := by
  unfold onConnection
  cases hs with
  | badUrl m => exact ⟨rfl, m, rfl⟩
  | query hst p =>
    dsimp only
    split
    · exact ⟨rfl, _, rfl⟩
    · exact ⟨rfl, _, rfl⟩

/-- C6: a handshake arriving while `currentConns >= MAX_CONN` gets exactly one `error`
message and `ws.close()`, no byte-stream connection is opened, no listener is attached and
the counter is unchanged; and from the initial counter 0, for a maximum that is not
negative, the counter never exceeds `MAX_CONN` after any sequence of handshakes and
session events. -/
theorem capacity_bound (cfg : Config) (fromBase64 : JSON → Except String (List Nat))
    (hmax : 0 ≤ cfg.MAX_CONN) :
    (∀ (sv : Server) (hs : Handshake), sv.currentConns ≥ cfg.MAX_CONN →
      (Server.step cfg fromBase64 sv (.connection hs)).currentConns = sv.currentConns ∧
      ∃ (m : String) (c : Session),
        (Server.step cfg fromBase64 sv (.connection hs)).sessions = sv.sessions ++ [c] ∧
        c.sent = [Outbound.error m] ∧ c.ws = ReadyState.closing ∧
        c.tcpOpened = false ∧ c.registered = false) ∧
    (∀ trace : List ServerEvent,
      (Server.run cfg fromBase64 trace Server.init).currentConns ≤ cfg.MAX_CONN) := by
  constructor
  · intro sv hs h
    obtain ⟨h1, m, h2⟩ := onConnection_full cfg sv.currentConns hs h
    refine ⟨h1, m, _, rfl, ?_⟩
    rw [h2]
    exact ⟨rfl, rfl, rfl, rfl⟩
  · intro trace
    exact server_run_bound cfg fromBase64 trace Server.init hmax

theorem capacity_bound_witness :
    0 ≤ defaultConfig.MAX_CONN ∧
    (Server.step defaultConfig noBase64 { currentConns := 50, sessions := [] }
        (.connection (.query (some "10.0.0.5") (some "80")))).currentConns = 50 ∧
    (Server.run defaultConfig noBase64
        [.connection (.query (some "10.0.0.5") (some "80")), .session 0 .wsClose]
        Server.init).currentConns ≤ defaultConfig.MAX_CONN :=
  ⟨by decide,
   ((capacity_bound defaultConfig noBase64 (by decide)).1 { currentConns := 50, sessions := [] }
      (.query (some "10.0.0.5") (some "80")) (by decide)).1,
   (capacity_bound defaultConfig noBase64 (by decide)).2 _⟩

/-- C7: evaluation at the failing input.  One session is registered (counter 1); the
channel emits `error` and then `close`, both deliverable; each listener decrements, so the
counter is decremented twice and ends at -1. -/
theorem teardown_decrements_twice :
    (Server.run defaultConfig noBase64
        [.connection (.query (some "10.0.0.5") (some "80"))] Server.init).currentConns = 1 ∧
    Event.enabled openSession .wsError = true ∧
    Event.enabled (step noBase64 .wsError (1, openSession)).2 .wsClose = true ∧
    (Server.run defaultConfig noBase64
        [.connection (.query (some "10.0.0.5") (some "80")), .session 0 .wsError]
        Server.init).currentConns = 0 ∧
    (Server.run defaultConfig noBase64
        [.connection (.query (some "10.0.0.5") (some "80")), .session 0 .wsError,
         .session 0 .wsClose] Server.init).currentConns = -1 := by
  decide

/-- The soft-failure path that exists: text that is not valid JSON gets exactly one `error`
reply; nothing is written, no endpoint is closed and the counter is unchanged. -/
theorem invalid_json_soft_failure (fromBase64 : JSON → Except String (List Nat)) (err : String)
    (n : Int) (s : Session) (hopen : s.ws = .opened) :
    (onMessage fromBase64 (.invalid err) s).sent = s.sent ++ [.error ("Bad message: " ++ err)] ∧
    (onMessage fromBase64 (.invalid err) s).written = s.written ∧
    (onMessage fromBase64 (.invalid err) s).ws = s.ws ∧
    (onMessage fromBase64 (.invalid err) s).tcpDestroyed = s.tcpDestroyed ∧
    (handle fromBase64 (.wsMessage (.invalid err)) n s).1 = n := by
  have h : s.resetIdle.ws = .opened := hopen
  simp only [onMessage, Session.wsSend, h, handle, if_true]
  exact ⟨rfl, rfl, hopen.symm, rfl, trivial⟩

/-- C9: evaluation at the failing input.  A `send` in hex mode whose payload has an odd
number of digits (`686`) or a non-hex character (`68:zz`, `zz`) produces no `error`
message; for `686` and `68:zz` the byte `0x68` is written to the byte stream. -/
theorem undecodable_hex_not_reported :
    (onMessage noBase64 (.json (.obj [("type", .str "send"), ("mode", .str "hex"),
        ("hex", .str "686")])) openSession).sent = [] ∧
    (onMessage noBase64 (.json (.obj [("type", .str "send"), ("mode", .str "hex"),
        ("hex", .str "686")])) openSession).bytesWritten = [104] ∧
    (onMessage noBase64 (.json (.obj [("type", .str "send"), ("mode", .str "hex"),
        ("hex", .str "68:zz")])) openSession).sent = [] ∧
    (onMessage noBase64 (.json (.obj [("type", .str "send"), ("mode", .str "hex"),
        ("hex", .str "68:zz")])) openSession).bytesWritten = [104] ∧
    (onMessage noBase64 (.json (.obj [("type", .str "send"), ("mode", .str "hex"),
        ("hex", .str "zz")])) openSession).sent = [] := by
  decide

/-! ## Idle timer -/

theorem wsSend_keeps (m : Outbound) (s : Session) (hm : m.isInfo = false) :
    (s.wsSend m).ws = s.ws ∧ (s.wsSend m).armed = s.armed ∧
    (s.wsSend m).idleTimer = s.idleTimer ∧ (s.wsSend m).tcpDestroyed = s.tcpDestroyed ∧
    (s.wsSend m).infoCount = s.infoCount := by
  unfold Session.wsSend
  split
  · simp [Session.infoCount, List.filter_append, hm]
  · exact ⟨rfl, rfl, rfl, rfl, rfl⟩

theorem onMessage_keeps (fromBase64 : JSON → Except String (List Nat)) (msg : Inbound)
    (s : Session) :
    (onMessage fromBase64 msg s).ws = s.ws ∧
    (onMessage fromBase64 msg s).armed = s.resetIdle.armed ∧
    (onMessage fromBase64 msg s).idleTimer = s.resetIdle.idleTimer ∧
    (onMessage fromBase64 msg s).tcpDestroyed = s.tcpDestroyed ∧
    (onMessage fromBase64 msg s).infoCount = s.infoCount := by
  have key : ∀ t : Session, (t = s.resetIdle ∨ (∃ b, t = s.resetIdle.tcpWrite b) ∨
      ∃ e, t = s.resetIdle.wsSend (.error e)) →
      t.ws = s.ws ∧ t.armed = s.resetIdle.armed ∧ t.idleTimer = s.resetIdle.idleTimer ∧
      t.tcpDestroyed = s.tcpDestroyed ∧ t.infoCount = s.infoCount := by
    rintro t (rfl | ⟨b, rfl⟩ | ⟨e, rfl⟩)
    · exact ⟨rfl, rfl, rfl, rfl, rfl⟩
    · exact ⟨rfl, rfl, rfl, rfl, rfl⟩
    · obtain ⟨h1, h2, h3, h4, h5⟩ := wsSend_keeps (.error e) s.resetIdle rfl
      exact ⟨h1, h2, h3, h4, h5⟩
  apply key
  unfold onMessage
  repeat' split
  all_goals first
    | exact Or.inl rfl
    | exact Or.inr (Or.inl ⟨_, rfl⟩)
    | exact Or.inr (Or.inr ⟨_, rfl⟩)

theorem resetIdle_timersOk (s : Session) (h : s.timersOk) : s.resetIdle.timersOk := by
  right
  rcases h with h | h <;>
    simp [Session.resetIdle, Session.armIdle, Session.clearIdle, h]

theorem clearIdle_armed (s : Session) (h : s.timersOk) : s.clearIdle.armed = [] := by
  rcases h with h | h <;> simp [Session.clearIdle, h]

theorem timeout_armed (s : Session) (id : Nat) (h : s.timersOk)
    (hen : Event.enabled s (.timeout id) = true) : s.armed.erase id = [] := by
  simp only [Event.enabled, Bool.and_eq_true, List.contains_eq_any_beq, List.any_eq_true,
    beq_iff_eq] at hen
  rcases h with h | h
  · simp [h] at hen
  · have hid : id = s.idleTimer := by
      have := hen.2
      rw [h] at this
      simpa using this
    simp [h, hid]

theorem onIdle_facts (s : Session) :
    s.onIdle.ws ≠ .opened ∧ s.onIdle.tcpDestroyed = true ∧ s.onIdle.armed = s.armed ∧
    s.onIdle.idleTimer = s.idleTimer ∧ (s.ws = .closed → s.onIdle.ws = .closed) ∧
    (s.ws ≠ .opened → s.onIdle.infoCount = s.infoCount ∧ s.onIdle.ws = s.ws) ∧
    (s.ws = .opened → s.onIdle.sent = s.sent ++ [.info "Idle timeout."] ∧
      s.onIdle.infoCount = s.infoCount + 1 ∧ s.onIdle.ws = .closing) := by
  obtain ⟨ws, sent, o, d, w, t, a, nx, r, tg⟩ := s
  cases ws <;>
    simp [Session.onIdle, Session.wsSend, Session.wsClose, Session.tcpDestroy,
      Session.infoCount, List.filter_append, Outbound.isInfo]

theorem step_idleOk (fromBase64 : JSON → Except String (List Nat)) (ev : Event)
    (st : Int × Session) (h : st.2.idleOk) : (step fromBase64 ev st).2.idleOk := by
  unfold step
  split
  swap
  · exact h
  rename_i hen
  obtain ⟨hT, hA, hB, hC⟩ := h
  cases ev with
  | tcpConnect =>
    obtain ⟨h1, h2, h3, h4, h5⟩ := wsSend_keeps (.status ("Connected to " ++ st.2.target)) st.2 rfl
    simp only [handle, Session.idleOk, Session.timersOk, h1, h2, h3, h4, h5]
    exact ⟨hT, hA, hB, hC⟩
  | tcpData chunk =>
    obtain ⟨h1, h2, h3, h4, h5⟩ := wsSend_keeps (.data chunk) st.2 rfl
    have hT2 : (st.2.wsSend (.data chunk)).timersOk := by
      simp only [Session.timersOk, h2, h3]; exact hT
    have hr := resetIdle_timersOk _ hT2
    simp only [Event.enabled, Bool.and_eq_true, Bool.not_eq_true'] at hen
    refine ⟨hr, ?_, ?_, ?_⟩
    · show (st.2.wsSend (.data chunk)).infoCount ≤ 1
      rw [h5]; exact hA
    · show (st.2.wsSend (.data chunk)).ws = .opened → (st.2.wsSend (.data chunk)).infoCount = 0
      rw [h1, h5]; exact hB
    · intro hc
      have hc2 : st.2.ws = .closed := by rw [← h1]; exact hc
      have := (hC hc2).2
      rw [hen.2] at this
      exact absurd this (by simp)
  | tcpEnd =>
    obtain ⟨h1, h2, h3, h4, h5⟩ := wsSend_keeps (.status "Remote closed.") st.2 rfl
    simp only [Event.enabled, Bool.and_eq_true, Bool.not_eq_true'] at hen
    refine ⟨?_, ?_, ?_, ?_⟩
    · show (st.2.wsSend (.status "Remote closed.")).armed = [] ∨
        (st.2.wsSend (.status "Remote closed.")).armed =
          [(st.2.wsSend (.status "Remote closed.")).idleTimer]
      rw [h2, h3]; exact hT
    · show (st.2.wsSend (.status "Remote closed.")).infoCount ≤ 1
      rw [h5]; exact hA
    · intro hc
      simp only [handle, Session.wsClose] at hc
      rw [h1] at hc
      cases hw : st.2.ws <;> simp [hw] at hc
    · intro hc
      simp only [handle, Session.wsClose] at hc
      rw [h1] at hc
      have hc2 : st.2.ws = .closed := by cases hw : st.2.ws <;> simp [hw] at hc ⊢
      have := (hC hc2).2
      rw [hen.2] at this
      exact absurd this (by simp)
  | tcpError m =>
    obtain ⟨h1, h2, h3, h4, h5⟩ := wsSend_keeps (.error ("TCP error: " ++ m)) st.2 rfl
    simp only [Event.enabled, Bool.and_eq_true, Bool.not_eq_true'] at hen
    refine ⟨?_, ?_, ?_, ?_⟩
    · show (st.2.wsSend (.error ("TCP error: " ++ m))).armed = [] ∨
        (st.2.wsSend (.error ("TCP error: " ++ m))).armed =
          [(st.2.wsSend (.error ("TCP error: " ++ m))).idleTimer]
      rw [h2, h3]; exact hT
    · show (st.2.wsSend (.error ("TCP error: " ++ m))).infoCount ≤ 1
      rw [h5]; exact hA
    · intro hc
      simp only [handle, Session.wsClose] at hc
      rw [h1] at hc
      cases hw : st.2.ws <;> simp [hw] at hc
    · intro hc
      simp only [handle, Session.wsClose] at hc
      rw [h1] at hc
      have hc2 : st.2.ws = .closed := by cases hw : st.2.ws <;> simp [hw] at hc ⊢
      have := (hC hc2).2
      rw [hen.2] at this
      exact absurd this (by simp)
  | wsMessage msg =>
    obtain ⟨h1, h2, h3, h4, h5⟩ := onMessage_keeps fromBase64 msg st.2
    have hr := resetIdle_timersOk _ hT
    simp only [Event.enabled, Bool.and_eq_true, bne_iff_ne, ne_eq] at hen
    simp only [handle, Session.idleOk, Session.timersOk, h1, h2, h3, h4, h5]
    exact ⟨hr, hA, hB, fun hc => absurd hc hen.2⟩
  | wsClose =>
    have ha := clearIdle_armed { st.2 with ws := .closed } hT
    exact ⟨Or.inl ha, hA, fun hc => absurd hc (by simp [handle, Session.clearIdle,
      Session.tcpDestroy]), fun _ => ⟨ha, rfl⟩⟩
  | wsError =>
    have ha := clearIdle_armed { st.2 with ws := .closing } hT
    exact ⟨Or.inl ha, hA, fun hc => absurd hc (by simp [handle, Session.clearIdle,
      Session.tcpDestroy]), fun _ => ⟨ha, rfl⟩⟩
  | timeout id =>
    have he := timeout_armed st.2 id hT hen
    obtain ⟨f1, f2, f3, f4, f5, f6, f7⟩ :=
      onIdle_facts ({ st.2 with armed := st.2.armed.erase id } : Session)
    simp only at f3 f5 f6 f7
    have harm : (handle fromBase64 (.timeout id) st.1 st.2).2.armed = [] := by
      show (Session.onIdle _).armed = []
      rw [f3]; exact he
    refine ⟨Or.inl harm, ?_, fun hc => absurd hc f1, fun _ => ⟨harm, f2⟩⟩
    show (Session.onIdle _).infoCount ≤ 1
    by_cases ho : st.2.ws = .opened
    · rw [(f7 ho).2.1]
      have := hB ho
      simp only [Session.infoCount] at this ⊢
      omega
    · rw [(f6 ho).1]
      exact hA

theorem run_idleOk (fromBase64 : JSON → Except String (List Nat)) (evs : List Event)
    (st : Int × Session) (h : st.2.idleOk) : (run fromBase64 evs st).2.idleOk := by
  induction evs generalizing st with
  | nil => exact h
  | cons e rest ih =>
    simp only [run, List.foldl_cons]
    exact ih _ (step_idleOk fromBase64 e st h)

theorem step_not_open (fromBase64 : JSON → Except String (List Nat)) (ev : Event)
    (st : Int × Session) (h : st.2.ws ≠ .opened) :
    (step fromBase64 ev st).2.ws ≠ .opened ∧
    (step fromBase64 ev st).2.infoCount = st.2.infoCount := by
  unfold step
  split
  swap
  · exact ⟨h, rfl⟩
  cases ev with
  | wsMessage msg =>
    obtain ⟨h1, _, _, _, h5⟩ := onMessage_keeps fromBase64 msg st.2
    simp only [handle, h1, h5]
    exact ⟨h, trivial⟩
  | timeout id =>
    obtain ⟨f1, _, _, _, _, f6, _⟩ :=
      onIdle_facts ({ st.2 with armed := st.2.armed.erase id } : Session)
    exact ⟨f1, (f6 h).1⟩
  | tcpConnect =>
    obtain ⟨n, ws, sent, o, d, w, t, a, nx, r, tg⟩ := st
    cases ws <;> simp_all [handle, Session.wsSend, Session.infoCount]
  | tcpData chunk =>
    obtain ⟨n, ws, sent, o, d, w, t, a, nx, r, tg⟩ := st
    cases ws <;> simp_all [handle, Session.wsSend, Session.infoCount, Session.resetIdle,
      Session.armIdle, Session.clearIdle]
  | tcpEnd =>
    obtain ⟨n, ws, sent, o, d, w, t, a, nx, r, tg⟩ := st
    cases ws <;> simp_all [handle, Session.wsSend, Session.infoCount, Session.wsClose]
  | tcpError m =>
    obtain ⟨n, ws, sent, o, d, w, t, a, nx, r, tg⟩ := st
    cases ws <;> simp_all [handle, Session.wsSend, Session.infoCount, Session.wsClose]
  | wsClose =>
    exact ⟨by simp [handle, Session.clearIdle, Session.tcpDestroy], rfl⟩
  | wsError =>
    exact ⟨by simp [handle, Session.clearIdle, Session.tcpDestroy], rfl⟩

theorem run_not_open (fromBase64 : JSON → Except String (List Nat)) (evs : List Event)
    (st : Int × Session) (h : st.2.ws ≠ .opened) :
    (run fromBase64 evs st).2.infoCount = st.2.infoCount := by
  induction evs generalizing st with
  | nil => rfl
  | cons e rest ih =>
    simp only [run, List.foldl_cons]
    have hs := step_not_open fromBase64 e st h
    have := ih (step fromBase64 e st) hs.1
    simp only [run] at this
    rw [this, hs.2]

theorem admitted_idleOk (cfg : Config) (n : Int) (hs : Handshake)
    (hadm : (onConnection cfg n hs).2.registered = true) :
    (onConnection cfg n hs).2.idleOk := by
  unfold onConnection at hadm ⊢
  cases hs with
  | badUrl m => simp [rejected, Session.wsClose, Session.wsSend, Session.fresh] at hadm
  | query h p =>
    dsimp only at hadm ⊢
    split at hadm
    · simp [rejected, Session.wsClose, Session.wsSend, Session.fresh] at hadm
    · rename_i h1
      rw [if_neg h1]
      split at hadm
      · simp [rejected, Session.wsClose, Session.wsSend, Session.fresh] at hadm
      · rename_i h2
        rw [if_neg h2]
        split at hadm
        · simp [rejected, Session.wsClose, Session.wsSend, Session.fresh] at hadm
        · rename_i h3
          rw [if_neg h3]
          simp [Session.idleOk, Session.timersOk, Session.armIdle, Session.fresh,
            Session.infoCount]

/-- C10, as stated, fails: the byte stream ends (the channel starts closing, the idle
timer stays pending) and the idle timer then expires; the `info` message is not sent to the
client, and none is sent in any continuation of the session. -/
theorem idle_expiry_while_closing_sends_no_info :
    Event.enabled openSession .tcpEnd = true ∧
    (run noBase64 [.tcpEnd] (1, openSession)).2.ws = ReadyState.closing ∧
    Event.enabled (run noBase64 [.tcpEnd] (1, openSession)).2 (.timeout 0) = true ∧
    (run noBase64 [.tcpEnd, .timeout 0] (1, openSession)).2.tcpDestroyed = true ∧
    ∀ more : List Event,
      (run noBase64 more (run noBase64 [.tcpEnd, .timeout 0] (1, openSession))).2.infoCount
        = 0 := by
  refine ⟨by decide, by decide, by decide, by decide, ?_⟩
  intro more
  rw [run_not_open noBase64 more _ (by decide)]
  decide

/-- C10 (amended): in every execution of an admitted session the client is sent at most one
`info` idle-timeout message; every expiry of the idle timer closes the channel, destroys
the byte stream and leaves no timer pending, and an expiry on an open channel sends the one
`info` message of the whole life of the session; at every moment at most one idle timer is
pending, a closed channel has none, and none is pending once the `close` or `error`
listener of the channel has run. -/
theorem idle_timeout_contract (cfg : Config) (fromBase64 : JSON → Except String (List Nat))
    (n : Int) (hs : Handshake) (evs : List Event) (st : Int × Session)
    (hadm : (onConnection cfg n hs).2.registered = true)
    (hst : st = run fromBase64 evs (onConnection cfg n hs)) :
    st.2.infoCount ≤ 1 ∧
    st.2.armed.length ≤ 1 ∧
    (st.2.ws = .closed → st.2.armed = [] ∧ st.2.tcpDestroyed = true) ∧
    (∀ id : Nat, Event.enabled st.2 (.timeout id) = true →
      (step fromBase64 (.timeout id) st).2.ws ≠ .opened ∧
      (step fromBase64 (.timeout id) st).2.tcpDestroyed = true ∧
      (step fromBase64 (.timeout id) st).2.armed = [] ∧
      (st.2.ws = .opened →
        (step fromBase64 (.timeout id) st).2.sent = st.2.sent ++ [.info "Idle timeout."] ∧
        (step fromBase64 (.timeout id) st).2.ws = .closing ∧
        ∀ more : List Event,
          (run fromBase64 more (step fromBase64 (.timeout id) st)).2.infoCount = 1)) ∧
    (Event.enabled st.2 .wsClose = true →
      (step fromBase64 .wsClose st).2.ws = .closed ∧
      (step fromBase64 .wsClose st).2.armed = [] ∧
      (step fromBase64 .wsClose st).2.tcpDestroyed = true) ∧
    (Event.enabled st.2 .wsError = true →
      (step fromBase64 .wsError st).2.armed = [] ∧
      (step fromBase64 .wsError st).2.tcpDestroyed = true) := by
  have inv : st.2.idleOk := by
    rw [hst]
    exact run_idleOk fromBase64 evs _ (admitted_idleOk cfg n hs hadm)
  obtain ⟨hT, hA, hB, hC⟩ := inv
  refine ⟨hA, ?_, hC, ?_, ?_, ?_⟩
  · rcases hT with h1 | h1 <;> simp [h1]
  · intro id hen
    obtain ⟨f1, f2, f3, f4, f5, f6, f7⟩ :=
      onIdle_facts ({ st.2 with armed := st.2.armed.erase id } : Session)
    simp only at f3 f7
    have he := timeout_armed st.2 id hT hen
    have hstep : (step fromBase64 (.timeout id) st).2 =
        Session.onIdle { st.2 with armed := st.2.armed.erase id } := by
      simp [step, hen, handle]
    rw [hstep]
    refine ⟨f1, f2, by rw [f3]; exact he, ?_⟩
    intro ho
    refine ⟨(f7 ho).1, (f7 ho).2.2, ?_⟩
    intro more
    have hno : (step fromBase64 (.timeout id) st).2.ws ≠ .opened := by rw [hstep]; exact f1
    rw [run_not_open fromBase64 more _ hno, hstep, (f7 ho).2.1]
    have := hB ho
    simp only [Session.infoCount] at this ⊢
    omega
  · intro hen
    have ha := clearIdle_armed { st.2 with ws := .closed } hT
    have hstep : (step fromBase64 .wsClose st).2 =
        ({ st.2 with ws := .closed } : Session).clearIdle.tcpDestroy := by
      simp [step, hen, handle]
    rw [hstep]
    exact ⟨rfl, ha, rfl⟩
  · intro hen
    have ha := clearIdle_armed { st.2 with ws := .closing } hT
    have hstep : (step fromBase64 .wsError st).2 =
        ({ st.2 with ws := .closing } : Session).clearIdle.tcpDestroy := by
      simp [step, hen, handle]
    rw [hstep]
    exact ⟨ha, rfl⟩

theorem idle_timeout_contract_witness :
    (onConnection defaultConfig 0 (.query (some "10.0.0.5") (some "80"))).2.registered = true ∧
    ((1 : Int), openSession) =
      run noBase64 [] (onConnection defaultConfig 0 (.query (some "10.0.0.5") (some "80"))) ∧
    Event.enabled openSession (.timeout 0) = true ∧
    openSession.ws = ReadyState.opened ∧
    (step noBase64 (.timeout 0) (1, openSession)).2.sent = [Outbound.info "Idle timeout."] ∧
    (run noBase64 [.wsMessage (.json (.obj [])), .wsClose]
      (step noBase64 (.timeout 0) (1, openSession))).2.infoCount = 1 :=
  ⟨by decide, by decide, by decide, by decide,
   (((idle_timeout_contract defaultConfig noBase64 0 (.query (some "10.0.0.5") (some "80")) []
      (1, openSession) (by decide) (by decide)).2.2.2.1 0 (by decide)).2.2.2 (by decide)).1,
   (((idle_timeout_contract defaultConfig noBase64 0 (.query (some "10.0.0.5") (some "80")) []
      (1, openSession) (by decide) (by decide)).2.2.2.1 0 (by decide)).2.2.2 (by decide)).2.2 _⟩


/-! ## Hex payloads -/

theorem hexDigitChar_value (upper : Bool) (n : Nat) (h : n < 16) :
    hexDigitValue (hexDigitChar upper n) = some n := by
  interval_cases n <;> cases upper <;> decide

theorem hexDigitChar_not_separator (upper : Bool) (n : Nat) (h : n < 16) :
    isSeparator (hexDigitChar upper n) = false := by
  interval_cases n <;> cases upper <;> decide

theorem stripSeparators_append (xs ys : List Char) :
    stripSeparators (xs ++ ys) = stripSeparators xs ++ stripSeparators ys := by
  simp [stripSeparators]

theorem stripSeparators_run (xs : List Char) (h : xs.all isSeparator = true) :
    stripSeparators xs = [] := by
  simp only [stripSeparators, List.filter_eq_nil_iff]
  intro c hc
  have h1 : isSeparator c = true := List.all_eq_true.mp h c hc
  unfold isSeparator at h1
  simp [h1]

theorem stripSeparators_pair (upper : Bool) (b : Nat) (h : b < 256) :
    stripSeparators (hexPair upper b) = hexPair upper b := by
  have h1 := hexDigitChar_not_separator upper (b / 16) (by omega)
  have h2 := hexDigitChar_not_separator upper (b % 16) (by omega)
  simp only [isSeparator] at h1 h2
  simp [stripSeparators, hexPair, List.filter, h1, h2]

theorem bufferFromHex_payload (items : List (List Char × Bool × Nat)) (trailing : List Char)
    (hitems : ∀ it ∈ items, it.1.all isSeparator = true ∧ it.2.2 < 256)
    (htrail : trailing.all isSeparator = true) :
    bufferFromHex (stripSeparators (hexPayload items trailing)) = items.map (fun it => it.2.2) := by
  induction items with
  | nil => simp [hexPayload, stripSeparators_run trailing htrail, bufferFromHex]
  | cons it rest ih =>
    obtain ⟨sep, upper, b⟩ := it
    have hit := hitems (sep, upper, b) (List.mem_cons_self _ _)
    have hrest := ih (fun x hx => hitems x (List.mem_cons_of_mem _ hx))
    simp only [hexPayload, stripSeparators_append, stripSeparators_run sep hit.1,
      stripSeparators_pair upper b hit.2, List.nil_append]
    simp only [hexPair, List.cons_append, List.nil_append, bufferFromHex,
      hexDigitChar_value upper (b / 16) (by have := hit.2; simp only at this; omega),
      hexDigitChar_value upper (b % 16) (by omega), hrest, List.map_cons]
    congr 1
    omega

/-- C8: for every byte sequence, a `send` message in hex mode whose payload is the
two-hex-digit encoding of each byte (either case), with any runs of white space or colons
before, between and after the pairs, makes the message handler write exactly those bytes,
in order, in one `tcp.write`, and send nothing to the client. -/
theorem hex_send_round_trip (fromBase64 : JSON → Except String (List Nat)) (s : Session)
    (payload : JSON) (items : List (List Char × Bool × Nat)) (trailing : List Char)
    (htype : payload.prop "type" = some (.str "send"))
    (hmode : payload.prop "mode" = some (.str "hex"))
    (hhex : payload.prop "hex" = some (.str (String.mk (hexPayload items trailing))))
    (hitems : ∀ it ∈ items, it.1.all isSeparator = true ∧ it.2.2 < 256)
    (htrail : trailing.all isSeparator = true) :
    (onMessage fromBase64 (.json payload) s).written =
        s.written ++ [items.map (fun it => it.2.2)] ∧
    (onMessage fromBase64 (.json payload) s).bytesWritten =
        s.bytesWritten ++ items.map (fun it => it.2.2) ∧
    (onMessage fromBase64 (.json payload) s).sent = s.sent := by
  have hb := bufferFromHex_payload items trailing hitems htrail
  have hw : (onMessage fromBase64 (.json payload) s) =
      s.resetIdle.tcpWrite (items.map (fun it => it.2.2)) := by
    cases payload with
    | null => simp [JSON.prop] at htype
    | obj props =>
      have hm : isString (JSON.prop (.obj props) "mode") "text" = false := by
        rw [hmode]; decide
      simp only [onMessage, htype, hmode, hhex, isString, beq_self_eq_true, if_true]
      have : isString (some (JSON.str "hex")) "text" = false := by decide
      simp only [isString] at this
      simp only [this, Bool.false_eq_true, if_false]
      by_cases he : hexPayload items trailing = []
      · have hb2 := hb
        rw [he] at hb2
        simp [orEmpty, truthy, he, ← hb2, stripSeparators, bufferFromHex]
      · have : truthy (some (JSON.str (String.mk (hexPayload items trailing)))) = true := by
          simp [truthy, String.ext_iff, he]
        simp [orEmpty, this, hb]
    | bool b => simp [JSON.prop] at htype
    | num q => simp [JSON.prop] at htype
    | str t => simp [JSON.prop] at htype
    | arr xs => simp [JSON.prop] at htype
  rw [hw]
  refine ⟨rfl, ?_, rfl⟩
  simp [Session.bytesWritten, Session.tcpWrite, Session.resetIdle, Session.armIdle,
    Session.clearIdle]

theorem hex_send_round_trip_witness :
    String.mk (hexPayload [([], false, 104), ([' '], false, 101), ([' '], false, 108),
        ([' '], false, 108), ([' '], false, 111)] []) = "68 65 6c 6c 6f" ∧
    (onMessage noBase64 (.json (.obj [("type", .str "send"), ("mode", .str "hex"),
        ("hex", .str (String.mk (hexPayload [([], false, 104), ([' '], false, 101),
          ([' '], false, 108), ([' '], false, 108), ([' '], false, 111)] [])))]))
        openSession).bytesWritten = [104, 101, 108, 108, 111] :=
  ⟨by decide,
   (hex_send_round_trip noBase64 openSession
      (.obj [("type", .str "send"), ("mode", .str "hex"),
        ("hex", .str (String.mk (hexPayload [([], false, 104), ([' '], false, 101),
          ([' '], false, 108), ([' '], false, 108), ([' '], false, 111)] [])))])
      [([], false, 104), ([' '], false, 101), ([' '], false, 108), ([' '], false, 108),
        ([' '], false, 111)] [] rfl rfl rfl (by decide) (by decide)).2.1⟩

end Ciphercat
